import Mathlib

/-!
Verification of the size-expression parser and flash/filesystem partition
calculator of `tools/platformio-build.py` (arduino-pico PlatformIO build
script), shallowly embedded in Lean.

Embedding notes:

* `convert_size_expression_to_int` embeds the Python function of the same
  name.  The regex `^((?:[0-9]*[.])?[0-9]+)([mkbMKB]*)$` is embedded
  exactly: the two capture groups use disjoint character classes
  (digits/dot vs. the letters `mkbMKB`), so a match decomposes the string
  uniquely into a maximal digits/dot prefix and a letter suffix; Python's
  non-multiline `$` also matches just before one final newline, which
  `stripFinalNewline` reproduces.
* Python computes `int(float(numstr) * factor)`.  Every matched numeric
  string denotes the exact decimal rational (I + F/10^L) where I is the
  integer part, F the fractional digits and L their count; the embedding
  computes the truncation `(I*10^L + F) * factor / 10^L` with integer
  (floor) division, i.e. exact real arithmetic in place of IEEE doubles
  (the inputs exercised by the specification are all exactly
  representable).  `truncatedProduct_eq_floor` below proves this equals
  `⌊value * factor⌋` over ℚ.
* An uncaught Python exception (the `KeyError` a dictionary lookup with a
  missing key raises) is modelled by `PyResult.keyError`; text written to
  stderr/stdout is modelled by lists of structured messages carrying the
  interpolated values, since only their presence, order and payload matter
  to the specification (the float formatting of the summary text is
  abstracted).
* `populate_sketch_partition_info` embeds the Python function of the same
  name; the board configuration object is a record of the fields the
  function reads or writes plus an opaque remainder `other` standing for
  every other configuration entry, and the SCons environment keeps the
  four `PICO_*` entries the function assigns.  `env.Exit(-1)` terminates
  the process, modelled by the terminal `RunResult.fatalExit` state that
  carries the (unchanged) board and environment at the moment of exit.
* `linkerscript_step` embeds the module-level guard
  `if not board.get("build.ldscript", ""): populate_sketch_partition_info() ...`:
  an absent or empty `build.ldscript` is falsy in Python, any other string
  is truthy and skips the whole computation.
-/

namespace PlatformioBuild

/-- Characters matched by the first regex group `(?:[0-9]*[.])?[0-9]+`:
ASCII digits and the dot. -/
def isSizeNumChar (c : Char) : Bool := c.isDigit || c == '.'

/-- Characters matched by the second regex group `[mkbMKB]*`. -/
def isFactorChar (c : Char) : Bool :=
  c == 'm' || c == 'k' || c == 'b' || c == 'M' || c == 'K' || c == 'B'

/-- The fractional digits of a digits/dot string, when the first
non-digit character is the dot: the numeric group
`(?:[0-9]*[.])?[0-9]+` decomposes a candidate as leading digits, then
optionally one dot and the remaining characters. -/
def fracPartOf (cs : List Char) : Option (List Char) :=
  match cs.dropWhile Char.isDigit with
  | c :: frac => if c = '.' then some frac else none
  | [] => none

/-- Whether a string matches the numeric group `(?:[0-9]*[.])?[0-9]+`:
either a nonempty run of digits, or digits, one dot, then a nonempty run
of digits. -/
def matchesNumber (cs : List Char) : Bool :=
  match fracPartOf cs with
  | some frac => !frac.isEmpty && frac.all Char.isDigit
  | none => !cs.isEmpty && cs.all Char.isDigit

/-- Value of a digit string, most significant digit first. -/
def digitsToNat (cs : List Char) : ℕ :=
  cs.foldl (fun a c => 10 * a + (c.toNat - 48)) 0

/-- The exact rational value `float` gives to a matched numeric string. -/
def numValue (cs : List Char) : ℚ :=
  match fracPartOf cs with
  | some frac =>
      (digitsToNat (cs.takeWhile Char.isDigit) : ℚ)
        + (digitsToNat frac : ℚ) / (10 ^ frac.length : ℚ)
  | none => (digitsToNat cs : ℚ)

/-- `int(float(numstr) * k)` computed with exact integer arithmetic: the
matched number is `I + F/10^L`, so the truncated product is
`(I*10^L + F) * k / 10^L` with floor division (everything is
non-negative). -/
def truncatedProduct (cs : List Char) (k : ℕ) : ℤ :=
  match fracPartOf cs with
  | some frac =>
      ((digitsToNat (cs.takeWhile Char.isDigit) * 10 ^ frac.length
          + digitsToNat frac) * k : ℤ) / (10 ^ frac.length : ℤ)
  | none => (digitsToNat cs * k : ℤ)

/-- The `conversion_factors` dictionary; `none` means the key is absent
(a lookup then raises `KeyError`). -/
def conversion_factors : String → Option ℕ
  | "M" => some (1024 * 1024)
  | "MB" => some (1024 * 1024)
  | "K" => some 1024
  | "KB" => some 1024
  | "B" => some 1
  | "" => some 1
  | _ => none

/-- Python's non-multiline `$` matches at the end of the string or just
before a newline that ends the string. -/
def stripFinalNewline (cs : List Char) : List Char :=
  if cs.getLast? = some '\n' then cs.dropLast else cs

/-- Structured stderr messages (payload of the interpolated values). -/
inductive ErrMsg where
  /-- "Error: Could not parse filesystem size expression '%s'. Will treat
  as size = 0." -/
  | parseError (expression : String)
  /-- "Error: Filesystem too large for given flash. ... Available sketch
  size with current config would be %d bytes." -/
  | fsTooLarge (available : ℤ)
deriving DecidableEq

/-- Outcome of running a Python function that normally returns an `ℤ`:
either a returned value or an uncaught exception. -/
inductive PyResult where
  | ok (value : ℤ)
  /-- An uncaught `KeyError` raised with the given missing key. -/
  | keyError (key : String)
deriving DecidableEq

/-- Return value plus everything written to stderr. -/
structure ParseOutcome where
  result : PyResult
  stderr : List ErrMsg
deriving DecidableEq

/-- Embedding of `convert_size_expression_to_int(expression)`. -/
def convert_size_expression_to_int (expression : String) : ParseOutcome :=
  let cs := stripFinalNewline expression.toList
  let numPart := cs.takeWhile isSizeNumChar
  let factorPart := cs.dropWhile isSizeNumChar
  if matchesNumber numPart && factorPart.all isFactorChar then
    let factor := String.mk (factorPart.map Char.toUpper)
    match conversion_factors factor with
    | some k => { result := PyResult.ok (truncatedProduct numPart k), stderr := [] }
    | none => { result := PyResult.keyError factor, stderr := [] }
  else
    { result := PyResult.ok 0, stderr := [ErrMsg.parseError expression] }

/-- The board configuration object: the fields
`populate_sketch_partition_info` and the `build.ldscript` guard read or
write, plus an opaque remainder `other` standing for every other
configuration entry (`build.hwids`, `upload.maximum_ram_size`, ...).
`none` models an absent key (then `board.get`'s default applies). -/
structure Board (α : Type) where
  upload_maximum_size : ℤ
  build_filesystem_size : Option String
  build_ldscript : Option String
  other : α
deriving DecidableEq

/-- The SCons environment entries `populate_sketch_partition_info`
assigns (`env["PICO_..."] = ...`); `none` models an entry never
assigned. -/
structure Env where
  pico_flash_length : Option ℤ
  pico_eeprom_start : Option ℤ
  pico_fs_start : Option ℤ
  pico_fs_end : Option ℤ
deriving DecidableEq

/-- Structured stdout messages of `populate_sketch_partition_info`, in
emission order, carrying the interpolated values. -/
inductive OutMsg where
  /-- "Flash size: %.2fMB" -/
  | flashSizeLine (flash_size : ℤ)
  /-- "Sketch size: %.2fMB" -/
  | sketchSizeLine (maximum_size : ℤ)
  /-- "Filesystem size: %.2fMB" -/
  | filesystemSizeLine (filesystem_size_int : ℤ)
  /-- "Maximium size: %d Flash Length: %d EEPROM Start: %d Filesystem
  start %d Filesystem end %s" -/
  | summaryLine (maximum_size flash_length eeprom_start fs_start fs_end : ℤ)
deriving DecidableEq

/-- Terminal state of one run of the calculator: a normal return with the
updated board and environment, a process termination via `env.Exit`
carrying the board and environment as they were at the exit (no update
has happened), or an uncaught Python exception.  Each state records the
stdout and stderr produced up to that point. -/
inductive RunResult (α : Type) where
  | success (board : Board α) (env : Env)
      (stdout : List OutMsg) (stderr : List ErrMsg)
  | fatalExit (board : Board α) (env : Env)
      (stdout : List OutMsg) (stderr : List ErrMsg) (exitCode : ℤ)
  | exception (stdout : List OutMsg) (stderr : List ErrMsg)
deriving DecidableEq

/-- Embedding of `populate_sketch_partition_info()`.  The Python
function reads `board.get("upload.maximum_size")` and
`board.get("build.filesystem_size", "0MB")`, prints the three size
lines, computes the four offsets, and only then checks
`maximum_size <= 0`: on failure it writes the diagnostic to stderr and
calls `env.Exit(-1)` before any update; on success it overwrites
`upload.maximum_size`, assigns the four `PICO_*` entries and prints the
summary line.  A `KeyError` escaping the size parser propagates. -/
def populate_sketch_partition_info {α : Type} (board : Board α) (env : Env) :
    RunResult α :=
  let flash_size := board.upload_maximum_size
  let filesystem_size := board.build_filesystem_size.getD "0MB"
  let p := convert_size_expression_to_int filesystem_size
  match p.result with
  | PyResult.keyError _ => RunResult.exception [] p.stderr
  | PyResult.ok filesystem_size_int =>
    let maximum_size := flash_size - 4096 - filesystem_size_int
    let sizeLines := [OutMsg.flashSizeLine flash_size,
      OutMsg.sketchSizeLine maximum_size,
      OutMsg.filesystemSizeLine filesystem_size_int]
    let flash_length := maximum_size
    let eeprom_start := 0x10000000 + flash_size - 4096
    let fs_start := 0x10000000 + flash_size - 4096 - filesystem_size_int
    let fs_end := 0x10000000 + flash_size - 4096
    if maximum_size ≤ 0 then
      RunResult.fatalExit board env sizeLines
        (p.stderr ++ [ErrMsg.fsTooLarge maximum_size]) (-1)
    else
      RunResult.success
        { board with upload_maximum_size := maximum_size }
        { env with
            pico_flash_length := some flash_length,
            pico_eeprom_start := some eeprom_start,
            pico_fs_start := some fs_start,
            pico_fs_end := some fs_end }
        (sizeLines ++ [OutMsg.summaryLine maximum_size flash_length
          eeprom_start fs_start fs_end])
        p.stderr

/-- Embedding of the module-level guard: the partition computation runs
only when `board.get("build.ldscript", "")` is falsy, i.e. the key is
absent or its value is the empty string; otherwise nothing of it runs
and board and environment are untouched. -/
def linkerscript_step {α : Type} (board : Board α) (env : Env) :
    RunResult α :=
  if board.build_ldscript.getD "" = "" then
    populate_sketch_partition_info board env
  else
    RunResult.success board env [] []

/-- The board a `success` result carries. -/
def RunResult.boardOut {α : Type} : RunResult α → Option (Board α)
  | RunResult.success b _ _ _ => some b
  | _ => none

/-- The environment a `success` result carries. -/
def RunResult.envOut {α : Type} : RunResult α → Option Env
  | RunResult.success _ e _ _ => some e
  | _ => none

/-- Everything printed to stdout up to the terminal state. -/
def RunResult.stdoutOf {α : Type} : RunResult α → List OutMsg
  | RunResult.success _ _ o _ => o
  | RunResult.fatalExit _ _ o _ _ => o
  | RunResult.exception o _ => o

/-- Everything written to stderr up to the terminal state. -/
def RunResult.stderrOf {α : Type} : RunResult α → List ErrMsg
  | RunResult.success _ _ _ r => r
  | RunResult.fatalExit _ _ _ r _ => r
  | RunResult.exception _ r => r

/-- The exit code passed to `env.Exit`, when the run terminated the
process. -/
def RunResult.exitCodeOf {α : Type} : RunResult α → Option ℤ
  | RunResult.fatalExit _ _ _ _ c => some c
  | _ => none

/-- Observable behaviour of a run, independent of the opaque part of the
board: stdout, stderr, the resulting environment, the resulting
`upload.maximum_size` (on success) and the exit code (on abort). -/
def RunResult.trace {α : Type} : RunResult α →
    List OutMsg × List ErrMsg × Option Env × Option ℤ × Option ℤ
  | RunResult.success b e o r => (o, r, some e, some b.upload_maximum_size, none)
  | RunResult.fatalExit _ e o r c => (o, r, some e, none, some c)
  | RunResult.exception o r => (o, r, none, none, none)

/-! Supporting lemmas. -/

/-- A digits/dot character is never one of the factor letters. -/
theorem isFactorChar_not_sizeNum {c : Char} (h : isFactorChar c = true) :
    isSizeNumChar c = false := by
  simp only [isFactorChar, Bool.or_eq_true, beq_iff_eq] at h
  rcases h with ((((h | h) | h) | h) | h) | h <;> subst h <;> decide

/-- Inversion for `fracPartOf`: a fractional part arises exactly when the
first non-digit character is a dot. -/
theorem fracPartOf_eq_some {cs frac : List Char}
    (h : fracPartOf cs = some frac) :
    cs.dropWhile Char.isDigit = '.' :: frac := by
  unfold fracPartOf at h
  cases hd : cs.dropWhile Char.isDigit with
  | nil => rw [hd] at h; exact absurd h (by simp)
  | cons c t =>
    rw [hd] at h
    change (if c = '.' then some t else none) = some frac at h
    by_cases hc : c = '.'
    · subst hc
      rw [if_pos rfl] at h
      injection h with h
      rw [h]
    · rw [if_neg hc] at h
      exact absurd h (by simp)

/-- Every character of a string matching the numeric group is a digit or
the dot. -/
theorem matchesNumber_all_sizeNum {cs : List Char}
    (h : matchesNumber cs = true) : cs.all isSizeNumChar = true := by
  have htake : (cs.takeWhile Char.isDigit).all isSizeNumChar = true := by
    refine List.all_eq_true.2 ?_
    intro c hc
    have : Char.isDigit c := List.mem_takeWhile_imp hc
    simp [isSizeNumChar, this]
  unfold matchesNumber at h
  cases hf : fracPartOf cs with
  | none =>
    rw [hf] at h
    simp only [Bool.and_eq_true] at h
    refine List.all_eq_true.2 ?_
    intro c hc
    have : Char.isDigit c := by simpa using List.all_eq_true.1 h.2 c hc
    simp [isSizeNumChar, this]
  | some frac =>
    rw [hf] at h
    simp only [Bool.and_eq_true] at h
    have hd := fracPartOf_eq_some hf
    have hsplit : cs.takeWhile Char.isDigit ++ cs.dropWhile Char.isDigit = cs :=
      List.takeWhile_append_dropWhile Char.isDigit cs
    rw [← hsplit, hd, List.all_append, Bool.and_eq_true]
    refine ⟨htake, ?_⟩
    refine List.all_eq_true.2 ?_
    intro d hdmem
    rcases List.mem_cons.1 hdmem with rfl | hdmem
    · decide
    · have : Char.isDigit d := by simpa using List.all_eq_true.1 h.2 d hdmem
      simp [isSizeNumChar, this]

/-- Splitting off a prefix all of whose characters satisfy `p` from a
suffix whose first character does not is exactly what
`takeWhile`/`dropWhile` compute. -/
theorem takeWhile_dropWhile_append {p : Char → Bool} (a b : List Char)
    (ha : a.all p = true) (hb : ∀ c, b.head? = some c → p c = false) :
    (a ++ b).takeWhile p = a ∧ (a ++ b).dropWhile p = b := by
  induction a with
  | nil =>
    simp only [List.nil_append]
    cases b with
    | nil => simp
    | cons c t =>
      have hc := hb c rfl
      simp [List.takeWhile_cons, List.dropWhile_cons, hc]
  | cons c t ih =>
    simp only [List.all_cons, Bool.and_eq_true] at ha
    have := ih ha.2
    simp [List.takeWhile_cons, List.dropWhile_cons, ha.1, this.1, this.2]

/-- The integer computation of `truncatedProduct` is the floor of the
exact rational product of the number's value with the factor. -/
theorem truncatedProduct_eq_floor (cs : List Char) (k : ℕ) :
    truncatedProduct cs k = ⌊numValue cs * (k : ℚ)⌋ := by
  unfold truncatedProduct numValue
  cases hf : fracPartOf cs with
  | none =>
    simp only [hf]
    have : ((digitsToNat cs : ℚ)) * (k : ℚ) = ((digitsToNat cs * k : ℕ) : ℚ) := by
      push_cast; ring
    rw [this, Int.floor_natCast]
    push_cast; ring
  | some frac =>
    simp only [hf]
    have h10 : ((10 : ℚ) ^ frac.length) ≠ 0 := by positivity
    have hval :
        ((digitsToNat (cs.takeWhile Char.isDigit) : ℚ)
            + (digitsToNat frac : ℚ) / (10 ^ frac.length : ℚ)) * (k : ℚ)
          = (((digitsToNat (cs.takeWhile Char.isDigit) * 10 ^ frac.length
                + digitsToNat frac) * k : ℤ) : ℚ)
            / ((10 ^ frac.length : ℕ) : ℚ) := by
      push_cast
      field_simp
    rw [hval, Rat.floor_intCast_div_natCast]
    push_cast; ring_nf

/-- When the input decomposes into a matched numeric part and a factor
suffix that is a key of the dictionary, the parser returns the truncated
product and writes nothing to stderr.  The two regex groups use disjoint
character classes, so the decomposition in the hypothesis is the one the
regex finds. -/
theorem convert_matched (expression : String) (numPart factorPart : List Char)
    (k : ℕ)
    (hsplit : stripFinalNewline expression.toList = numPart ++ factorPart)
    (hnum : matchesNumber numPart = true)
    (hfac : factorPart.all isFactorChar = true)
    (hk : conversion_factors (String.mk (factorPart.map Char.toUpper)) = some k) :
    convert_size_expression_to_int expression =
      { result := PyResult.ok (truncatedProduct numPart k), stderr := [] } := by
  have hall : numPart.all isSizeNumChar = true := matchesNumber_all_sizeNum hnum
  have hhead : ∀ c, factorPart.head? = some c → isSizeNumChar c = false := by
    intro c hc
    cases factorPart with
    | nil => exact absurd hc (by simp)
    | cons d t =>
      have hd : d = c := by simpa using hc
      subst hd
      simp only [List.all_cons, Bool.and_eq_true] at hfac
      exact isFactorChar_not_sizeNum hfac.1
  obtain ⟨ht, hd⟩ :=
    takeWhile_dropWhile_append numPart factorPart hall hhead
  simp only [convert_size_expression_to_int, hsplit, ht, hd, hnum, hfac, hk,
    Bool.and_self, if_true]

/-- The parser never computes a negative byte count. -/
theorem truncatedProduct_nonneg (cs : List Char) (k : ℕ) :
    0 ≤ truncatedProduct cs k := by
  unfold truncatedProduct
  cases hf : fracPartOf cs with
  | none => positivity
  | some frac => exact Int.ediv_nonneg (by positivity) (by positivity)

/-- Master lemma for the success path of the partition calculator:
when the filesystem size expression parses to `fs_bytes` and
`flash - 4096 - fs_bytes` is positive, the run returns normally with the
updated board, the four assigned environment entries, the three size
lines followed by the summary line on stdout, and whatever the parser
wrote on stderr. -/
theorem populate_success {α : Type} (board : Board α) (env : Env) (fs_bytes : ℤ)
    (hp : (convert_size_expression_to_int
        (board.build_filesystem_size.getD "0MB")).result = PyResult.ok fs_bytes)
    (hpos : 0 < board.upload_maximum_size - 4096 - fs_bytes) :
    populate_sketch_partition_info board env =
      RunResult.success
        { board with upload_maximum_size :=
            board.upload_maximum_size - 4096 - fs_bytes }
        { env with
            pico_flash_length :=
              some (board.upload_maximum_size - 4096 - fs_bytes),
            pico_eeprom_start :=
              some (0x10000000 + board.upload_maximum_size - 4096),
            pico_fs_start :=
              some (0x10000000 + board.upload_maximum_size - 4096 - fs_bytes),
            pico_fs_end :=
              some (0x10000000 + board.upload_maximum_size - 4096) }
        [OutMsg.flashSizeLine board.upload_maximum_size,
         OutMsg.sketchSizeLine (board.upload_maximum_size - 4096 - fs_bytes),
         OutMsg.filesystemSizeLine fs_bytes,
         OutMsg.summaryLine (board.upload_maximum_size - 4096 - fs_bytes)
           (board.upload_maximum_size - 4096 - fs_bytes)
           (0x10000000 + board.upload_maximum_size - 4096)
           (0x10000000 + board.upload_maximum_size - 4096 - fs_bytes)
           (0x10000000 + board.upload_maximum_size - 4096)]
        (convert_size_expression_to_int
          (board.build_filesystem_size.getD "0MB")).stderr := by
  simp only [populate_sketch_partition_info, hp]
  rw [if_neg (by omega)]
  rfl

/-- Master lemma for the invalid path: when the parsed filesystem size
leaves no room for the sketch, the run prints the three size lines,
writes the overflow diagnostic to stderr and exits with code -1, leaving
board and environment untouched. -/
theorem populate_fatal {α : Type} (board : Board α) (env : Env) (fs_bytes : ℤ)
    (hp : (convert_size_expression_to_int
        (board.build_filesystem_size.getD "0MB")).result = PyResult.ok fs_bytes)
    (hneg : board.upload_maximum_size - 4096 - fs_bytes ≤ 0) :
    populate_sketch_partition_info board env =
      RunResult.fatalExit board env
        [OutMsg.flashSizeLine board.upload_maximum_size,
         OutMsg.sketchSizeLine (board.upload_maximum_size - 4096 - fs_bytes),
         OutMsg.filesystemSizeLine fs_bytes]
        ((convert_size_expression_to_int
            (board.build_filesystem_size.getD "0MB")).stderr
          ++ [ErrMsg.fsTooLarge (board.upload_maximum_size - 4096 - fs_bytes)])
        (-1) := by
  simp only [populate_sketch_partition_info, hp]
  rw [if_pos hneg]

/-! Concrete configurations used as test vectors. -/

/-- Empty starting environment: no `PICO_*` entry assigned yet. -/
def env0 : Env :=
  { pico_flash_length := none, pico_eeprom_start := none,
    pico_fs_start := none, pico_fs_end := none }

/-- A 2 MB-flash board with `build.filesystem_size = "0MB"` and no
custom linker script. -/
def pico2MB_fs0 : Board Unit :=
  { upload_maximum_size := 2 * 1024 * 1024,
    build_filesystem_size := some "0MB",
    build_ldscript := none, other := () }

/-- A 2 MB-flash board with `build.filesystem_size` absent, so the
default "0MB" applies. -/
def pico2MB_default : Board Unit :=
  { upload_maximum_size := 2 * 1024 * 1024,
    build_filesystem_size := none,
    build_ldscript := none, other := () }

/-- A 2 MB-flash board asking for a 2 MB filesystem: the sketch cannot
fit. -/
def pico2MB_fs2MB : Board Unit :=
  { upload_maximum_size := 2 * 1024 * 1024,
    build_filesystem_size := some "2MB",
    build_ldscript := none, other := () }

/-- A 4 MB-flash board with a 1 MB filesystem. -/
def pico4MB_fs1MB : Board Unit :=
  { upload_maximum_size := 4 * 1024 * 1024,
    build_filesystem_size := some "1MB",
    build_ldscript := none, other := () }

/-- A board configured with a custom linker script. -/
def picoCustomLd : Board Unit :=
  { upload_maximum_size := 2 * 1024 * 1024,
    build_filesystem_size := some "0MB",
    build_ldscript := some "custom.ld", other := () }

/-- Same flash and filesystem configuration as `pico4MB_fs1MB` but a
different remaining configuration, of a different type even. -/
def boardOtherB : Board Bool :=
  { upload_maximum_size := 4 * 1024 * 1024,
    build_filesystem_size := some "1MB",
    build_ldscript := some "other.ld", other := true }

/-! Claim theorems. -/

/-- C1: the specification says every input outside the accepted pattern
(number plus one of the suffixes "", B, K, KB, M, MB) makes the parser
write a diagnostic and return 0 without raising.  The code violates
this: "1KK" matches the code's regex (whose suffix group `[mkbMKB]*`
admits arbitrary repetitions) but "KK" is not a key of
`conversion_factors`, so the dictionary lookup raises an uncaught
`KeyError` instead; on "garbage" and "" the parser does behave as
claimed. -/
theorem convert_keyError_on_unrecognized_suffix :
    (convert_size_expression_to_int "1KK").result = PyResult.keyError "KK"
      ∧ (convert_size_expression_to_int "1KK").stderr = []
      ∧ convert_size_expression_to_int "garbage"
        = { result := PyResult.ok 0, stderr := [ErrMsg.parseError "garbage"] }
      ∧ convert_size_expression_to_int ""
        = { result := PyResult.ok 0, stderr := [ErrMsg.parseError ""] } :=
  ⟨by decide, by decide, by decide, by decide⟩

/-- C2: the partition calculator computes exactly
`sketch_max = flash_size - 4096 - fs_bytes`, `flash_length = sketch_max`,
`eeprom_start = 0x10000000 + flash_size - 4096`,
`fs_start = 0x10000000 + flash_size - 4096 - fs_bytes` and
`fs_end = 0x10000000 + flash_size - 4096`; in particular with 2 MB flash
and filesystem expression "0MB" (also the default when
`build.filesystem_size` is absent) the sketch maximum is
`2*1024*1024 - 4096` and `fs_start = fs_end`. -/
theorem partition_layout_formulas :
    (∀ (α : Type) (board : Board α) (env : Env) (fs_bytes : ℤ),
      (convert_size_expression_to_int
          (board.build_filesystem_size.getD "0MB")).result = PyResult.ok fs_bytes →
      0 < board.upload_maximum_size - 4096 - fs_bytes →
      populate_sketch_partition_info board env =
        RunResult.success
          { board with upload_maximum_size :=
              board.upload_maximum_size - 4096 - fs_bytes }
          { env with
              pico_flash_length :=
                some (board.upload_maximum_size - 4096 - fs_bytes),
              pico_eeprom_start :=
                some (0x10000000 + board.upload_maximum_size - 4096),
              pico_fs_start :=
                some (0x10000000 + board.upload_maximum_size - 4096 - fs_bytes),
              pico_fs_end :=
                some (0x10000000 + board.upload_maximum_size - 4096) }
          [OutMsg.flashSizeLine board.upload_maximum_size,
           OutMsg.sketchSizeLine (board.upload_maximum_size - 4096 - fs_bytes),
           OutMsg.filesystemSizeLine fs_bytes,
           OutMsg.summaryLine (board.upload_maximum_size - 4096 - fs_bytes)
             (board.upload_maximum_size - 4096 - fs_bytes)
             (0x10000000 + board.upload_maximum_size - 4096)
             (0x10000000 + board.upload_maximum_size - 4096 - fs_bytes)
             (0x10000000 + board.upload_maximum_size - 4096)]
          (convert_size_expression_to_int
            (board.build_filesystem_size.getD "0MB")).stderr)
    ∧ (populate_sketch_partition_info pico2MB_fs0 env0).boardOut
      = some { pico2MB_fs0 with upload_maximum_size := 2 * 1024 * 1024 - 4096 }
    ∧ (populate_sketch_partition_info pico2MB_fs0 env0).envOut
      = some
        { pico_flash_length := some (2 * 1024 * 1024 - 4096),
          pico_eeprom_start := some (0x10000000 + 2 * 1024 * 1024 - 4096),
          pico_fs_start := some (0x10000000 + 2 * 1024 * 1024 - 4096),
          pico_fs_end := some (0x10000000 + 2 * 1024 * 1024 - 4096) }
    ∧ ((populate_sketch_partition_info pico2MB_fs0 env0).envOut.map
        Env.pico_fs_start)
      = ((populate_sketch_partition_info pico2MB_fs0 env0).envOut.map
        Env.pico_fs_end)
    ∧ (populate_sketch_partition_info pico2MB_default env0).trace
      = (populate_sketch_partition_info pico2MB_fs0 env0).trace :=
  ⟨fun _ board env fs_bytes hp hpos => populate_success board env fs_bytes hp hpos,
   by decide, by decide, by decide, by decide⟩

/-- Witness for C2: the general formula conjunct applied to the concrete
4 MB board with a 1 MB filesystem. -/
theorem partition_layout_formulas_witness :
    populate_sketch_partition_info pico4MB_fs1MB env0 =
      RunResult.success
        { pico4MB_fs1MB with upload_maximum_size :=
            pico4MB_fs1MB.upload_maximum_size - 4096 - 1024 * 1024 }
        { env0 with
            pico_flash_length :=
              some (pico4MB_fs1MB.upload_maximum_size - 4096 - 1024 * 1024),
            pico_eeprom_start :=
              some (0x10000000 + pico4MB_fs1MB.upload_maximum_size - 4096),
            pico_fs_start :=
              some (0x10000000 + pico4MB_fs1MB.upload_maximum_size - 4096
                - 1024 * 1024),
            pico_fs_end :=
              some (0x10000000 + pico4MB_fs1MB.upload_maximum_size - 4096) }
        [OutMsg.flashSizeLine pico4MB_fs1MB.upload_maximum_size,
         OutMsg.sketchSizeLine
           (pico4MB_fs1MB.upload_maximum_size - 4096 - 1024 * 1024),
         OutMsg.filesystemSizeLine (1024 * 1024),
         OutMsg.summaryLine
           (pico4MB_fs1MB.upload_maximum_size - 4096 - 1024 * 1024)
           (pico4MB_fs1MB.upload_maximum_size - 4096 - 1024 * 1024)
           (0x10000000 + pico4MB_fs1MB.upload_maximum_size - 4096)
           (0x10000000 + pico4MB_fs1MB.upload_maximum_size - 4096 - 1024 * 1024)
           (0x10000000 + pico4MB_fs1MB.upload_maximum_size - 4096)]
        (convert_size_expression_to_int
          (pico4MB_fs1MB.build_filesystem_size.getD "0MB")).stderr :=
  partition_layout_formulas.1 Unit pico4MB_fs1MB env0 (1024 * 1024)
    (by decide) (by decide)

/-- C3: when the computed sketch maximum is non-positive the calculator
writes the overflow diagnostic (carrying the available sketch size) to
stderr, terminates via `env.Exit(-1)` with a non-zero code, and no
partial layout is produced: the terminal state carries the board and
environment exactly as they were, no success board/environment exists,
and the four `PICO_*` entries were never assigned. -/
theorem partition_fatal_on_nonpositive_sketch :
    ∀ (α : Type) (board : Board α) (env : Env) (fs_bytes : ℤ),
      (convert_size_expression_to_int
          (board.build_filesystem_size.getD "0MB")).result = PyResult.ok fs_bytes →
      board.upload_maximum_size - 4096 - fs_bytes ≤ 0 →
      populate_sketch_partition_info board env =
          RunResult.fatalExit board env
            [OutMsg.flashSizeLine board.upload_maximum_size,
             OutMsg.sketchSizeLine (board.upload_maximum_size - 4096 - fs_bytes),
             OutMsg.filesystemSizeLine fs_bytes]
            ((convert_size_expression_to_int
                (board.build_filesystem_size.getD "0MB")).stderr
              ++ [ErrMsg.fsTooLarge (board.upload_maximum_size - 4096 - fs_bytes)])
            (-1)
        ∧ (populate_sketch_partition_info board env).boardOut = none
        ∧ (populate_sketch_partition_info board env).envOut = none
        ∧ (populate_sketch_partition_info board env).exitCodeOf = some (-1)
        ∧ ((-1 : ℤ) ≠ 0) := by
  intro α board env fs_bytes hp hneg
  have h := populate_fatal board env fs_bytes hp hneg
  refine ⟨h, ?_, ?_, ?_, by decide⟩ <;> rw [h] <;> rfl

/-- Witness for C3: a 2 MB board with a 2 MB filesystem aborts with exit
code -1 and no layout. -/
theorem partition_fatal_on_nonpositive_sketch_witness :
    (populate_sketch_partition_info pico2MB_fs2MB env0).exitCodeOf = some (-1)
      ∧ (populate_sketch_partition_info pico2MB_fs2MB env0).envOut = none :=
  ⟨(partition_fatal_on_nonpositive_sketch Unit pico2MB_fs2MB env0
      (2 * 1024 * 1024) (by decide) (by decide)).2.2.2.1,
   (partition_fatal_on_nonpositive_sketch Unit pico2MB_fs2MB env0
      (2 * 1024 * 1024) (by decide) (by decide)).2.2.1⟩

/-- C4: the parser multiplies the numeric part by the unit's multiplier
("" and "B" give 1, "K"/"KB" give 1024, "M"/"MB" give 1024*1024,
case-insensitively via uppercasing the suffix) and returns the
truncated-to-integer product; concretely `parse("2MB") = 2*1024*1024`,
`parse("512K") = 512*1024`, `parse("0") = 0`,
`parse("1.5MB") = 1572864`, and lowercase "2mb" behaves like "2MB". -/
theorem convert_truncated_product :
    (∀ (expression : String) (numPart factorPart : List Char) (k : ℕ),
      stripFinalNewline expression.toList = numPart ++ factorPart →
      matchesNumber numPart = true →
      factorPart.all isFactorChar = true →
      conversion_factors (String.mk (factorPart.map Char.toUpper)) = some k →
      (convert_size_expression_to_int expression).result
        = PyResult.ok ⌊numValue numPart * (k : ℚ)⌋)
    ∧ conversion_factors "" = some 1
    ∧ conversion_factors "B" = some 1
    ∧ conversion_factors "K" = some 1024
    ∧ conversion_factors "KB" = some 1024
    ∧ conversion_factors "M" = some (1024 * 1024)
    ∧ conversion_factors "MB" = some (1024 * 1024)
    ∧ (convert_size_expression_to_int "2MB").result
      = PyResult.ok (2 * 1024 * 1024)
    ∧ (convert_size_expression_to_int "512K").result
      = PyResult.ok (512 * 1024)
    ∧ (convert_size_expression_to_int "0").result = PyResult.ok 0
    ∧ (convert_size_expression_to_int "1.5MB").result = PyResult.ok 1572864
    ∧ (convert_size_expression_to_int "2mb").result
      = PyResult.ok (2 * 1024 * 1024) := by
  refine ⟨?_, by decide, by decide, by decide, by decide, by decide, by decide,
    by decide, by decide, by decide, by decide, by decide⟩
  intro expression numPart factorPart k hsplit hnum hfac hk
  rw [convert_matched expression numPart factorPart k hsplit hnum hfac hk,
    ← truncatedProduct_eq_floor]

/-- Witness for C4: the general conjunct applied to "1.5MB", whose
decomposition is the numeric part "1.5" and the suffix "MB". -/
theorem convert_truncated_product_witness :
    stripFinalNewline ("1.5MB".toList) = ['1', '.', '5'] ++ ['M', 'B']
      ∧ (convert_size_expression_to_int "1.5MB").result
        = PyResult.ok ⌊numValue ['1', '.', '5'] * ((1024 * 1024 : ℕ) : ℚ)⌋ :=
  ⟨by decide,
   convert_truncated_product.1 "1.5MB" ['1', '.', '5'] ['M', 'B'] (1024 * 1024)
     (by decide) (by decide) (by decide) (by decide)⟩

/-- C5: whenever `flash_size - 4096 - fs_bytes` is positive, the
returned layout satisfies `fs_end - fs_start = fs_bytes` and
`eeprom_start = fs_end`. -/
theorem fs_region_size_and_eeprom_boundary :
    ∀ (α : Type) (board : Board α) (env : Env) (fs_bytes : ℤ),
      (convert_size_expression_to_int
          (board.build_filesystem_size.getD "0MB")).result = PyResult.ok fs_bytes →
      0 < board.upload_maximum_size - 4096 - fs_bytes →
      ∃ (board' : Board α) (env' : Env) (stdout : List OutMsg)
        (stderr : List ErrMsg) (fsS fsE eeS : ℤ),
        populate_sketch_partition_info board env
            = RunResult.success board' env' stdout stderr
          ∧ env'.pico_fs_start = some fsS
          ∧ env'.pico_fs_end = some fsE
          ∧ env'.pico_eeprom_start = some eeS
          ∧ fsE - fsS = fs_bytes
          ∧ eeS = fsE := by
  intro α board env fs_bytes hp hpos
  exact ⟨_, _, _, _,
    0x10000000 + board.upload_maximum_size - 4096 - fs_bytes,
    0x10000000 + board.upload_maximum_size - 4096,
    0x10000000 + board.upload_maximum_size - 4096,
    populate_success board env fs_bytes hp hpos,
    rfl, rfl, rfl, by ring, rfl⟩

/-- Witness for C5: the 4 MB board with a 1 MB filesystem. -/
theorem fs_region_size_and_eeprom_boundary_witness :
    ∃ (board' : Board Unit) (env' : Env) (stdout : List OutMsg)
      (stderr : List ErrMsg) (fsS fsE eeS : ℤ),
      populate_sketch_partition_info pico4MB_fs1MB env0
          = RunResult.success board' env' stdout stderr
        ∧ env'.pico_fs_start = some fsS
        ∧ env'.pico_fs_end = some fsE
        ∧ env'.pico_eeprom_start = some eeS
        ∧ fsE - fsS = 1024 * 1024
        ∧ eeS = fsE :=
  fs_region_size_and_eeprom_boundary Unit pico4MB_fs1MB env0 (1024 * 1024)
    (by decide) (by decide)

/-- C6: the calculator is a pure function of the configuration it reads:
two runs over boards agreeing on `upload.maximum_size` and
`build.filesystem_size` (everything else, including the type of the
remaining configuration, may differ) produce the same observable
behaviour, so identical inputs always yield identical outputs and no
hidden state is carried between calls. -/
theorem populate_depends_only_on_read_config :
    ∀ (α β : Type) (b1 : Board α) (b2 : Board β) (env : Env),
      b1.upload_maximum_size = b2.upload_maximum_size →
      b1.build_filesystem_size = b2.build_filesystem_size →
      (populate_sketch_partition_info b1 env).trace
        = (populate_sketch_partition_info b2 env).trace := by
  intro α β b1 b2 env h1 h2
  simp only [populate_sketch_partition_info, h1, h2]
  cases hres : (convert_size_expression_to_int
      (b2.build_filesystem_size.getD "0MB")).result with
  | keyError k => rfl
  | ok fs =>
    dsimp only
    by_cases hle : b2.upload_maximum_size - 4096 - fs ≤ 0
    · rw [if_pos hle, if_pos hle]
      rfl
    · rw [if_neg hle, if_neg hle]
      rfl

/-- Witness for C6: a `Board Unit` and a `Board Bool` with the same two
read fields give the same trace. -/
theorem populate_depends_only_on_read_config_witness :
    (populate_sketch_partition_info pico4MB_fs1MB env0).trace
      = (populate_sketch_partition_info boardOtherB env0).trace :=
  populate_depends_only_on_read_config Unit Bool pico4MB_fs1MB boardOtherB env0
    rfl rfl

/-- C7 counterexample: the claim says no summary is emitted on the
invalid path, but on a 2 MB board with a 2 MB filesystem the run exits
with code -1 having already printed the three summary lines (the code
prints them before the validation check). -/
theorem summary_emitted_on_invalid_path :
    (populate_sketch_partition_info pico2MB_fs2MB env0).exitCodeOf = some (-1)
      ∧ (populate_sketch_partition_info pico2MB_fs2MB env0).stdoutOf
        = [OutMsg.flashSizeLine (2 * 1024 * 1024), OutMsg.sketchSizeLine (-4096),
           OutMsg.filesystemSizeLine (2 * 1024 * 1024)]
      ∧ (populate_sketch_partition_info pico2MB_fs2MB env0).stdoutOf ≠ [] :=
  ⟨by decide, by decide, by decide⟩

/-- C7 as amended: the human-readable summary (flash size, sketch size,
filesystem size) is emitted before the validation check on every run
whose size expression parses, i.e. on the success path and also on the
invalid path, where it is printed and then the build terminates. -/
theorem summary_emitted_before_validation :
    ∀ (α : Type) (board : Board α) (env : Env) (fs_bytes : ℤ),
      (convert_size_expression_to_int
          (board.build_filesystem_size.getD "0MB")).result = PyResult.ok fs_bytes →
      ((populate_sketch_partition_info board env).stdoutOf).take 3
        = [OutMsg.flashSizeLine board.upload_maximum_size,
           OutMsg.sketchSizeLine (board.upload_maximum_size - 4096 - fs_bytes),
           OutMsg.filesystemSizeLine fs_bytes] := by
  intro α board env fs_bytes hp
  by_cases hle : board.upload_maximum_size - 4096 - fs_bytes ≤ 0
  · rw [populate_fatal board env fs_bytes hp hle]
    rfl
  · rw [populate_success board env fs_bytes hp (by omega)]
    rfl

/-- Witness for the amended C7, on the invalid 2 MB/2 MB configuration. -/
theorem summary_emitted_before_validation_witness :
    ((populate_sketch_partition_info pico2MB_fs2MB env0).stdoutOf).take 3
      = [OutMsg.flashSizeLine pico2MB_fs2MB.upload_maximum_size,
         OutMsg.sketchSizeLine
           (pico2MB_fs2MB.upload_maximum_size - 4096 - 2 * 1024 * 1024),
         OutMsg.filesystemSizeLine (2 * 1024 * 1024)] :=
  summary_emitted_before_validation Unit pico2MB_fs2MB env0 (2 * 1024 * 1024)
    (by decide)

/-- C8: on a successful run `upload.maximum_size` is overwritten with
the computed sketch maximum while every other board field is unchanged
(the record update touches only that field), and the four values for the
linker-script placeholders are published in the environment. -/
theorem success_updates_and_frame :
    ∀ (α : Type) (board : Board α) (env : Env) (fs_bytes : ℤ),
      (convert_size_expression_to_int
          (board.build_filesystem_size.getD "0MB")).result = PyResult.ok fs_bytes →
      0 < board.upload_maximum_size - 4096 - fs_bytes →
      ∃ (stdout : List OutMsg) (stderr : List ErrMsg),
        populate_sketch_partition_info board env =
          RunResult.success
            { board with upload_maximum_size :=
                board.upload_maximum_size - 4096 - fs_bytes }
            { env with
                pico_flash_length :=
                  some (board.upload_maximum_size - 4096 - fs_bytes),
                pico_eeprom_start :=
                  some (0x10000000 + board.upload_maximum_size - 4096),
                pico_fs_start :=
                  some (0x10000000 + board.upload_maximum_size - 4096 - fs_bytes),
                pico_fs_end :=
                  some (0x10000000 + board.upload_maximum_size - 4096) }
            stdout stderr := by
  intro α board env fs_bytes hp hpos
  exact ⟨_, _, populate_success board env fs_bytes hp hpos⟩

/-- Witness for C8: the 2 MB board with a zero-byte filesystem. -/
theorem success_updates_and_frame_witness :
    ∃ (stdout : List OutMsg) (stderr : List ErrMsg),
      populate_sketch_partition_info pico2MB_fs0 env0 =
        RunResult.success
          { pico2MB_fs0 with upload_maximum_size :=
              pico2MB_fs0.upload_maximum_size - 4096 - 0 }
          { env0 with
              pico_flash_length :=
                some (pico2MB_fs0.upload_maximum_size - 4096 - 0),
              pico_eeprom_start :=
                some (0x10000000 + pico2MB_fs0.upload_maximum_size - 4096),
              pico_fs_start :=
                some (0x10000000 + pico2MB_fs0.upload_maximum_size - 4096 - 0),
              pico_fs_end :=
                some (0x10000000 + pico2MB_fs0.upload_maximum_size - 4096) }
          stdout stderr :=
  success_updates_and_frame Unit pico2MB_fs0 env0 0 (by decide) (by decide)

/-- Case analysis on the parser's result: it returns the fallback 0, or
raises a `KeyError`, or returns a truncated product. -/
theorem convert_result_cases (e : String) :
    (convert_size_expression_to_int e).result = PyResult.ok 0
    ∨ (∃ k : String,
        (convert_size_expression_to_int e).result = PyResult.keyError k)
    ∨ ∃ (np : List Char) (k : ℕ),
        (convert_size_expression_to_int e).result
          = PyResult.ok (truncatedProduct np k) := by
  simp only [convert_size_expression_to_int]
  split
  · split
    · right; right; exact ⟨_, _, rfl⟩
    · right; left; exact ⟨_, rfl⟩
  · left; rfl

/-- C9: every value the parser returns is non-negative. -/
theorem convert_value_nonneg :
    ∀ (expression : String) (n : ℤ),
      (convert_size_expression_to_int expression).result = PyResult.ok n →
      0 ≤ n := by
  intro e n h
  rcases convert_result_cases e with h0 | ⟨k, hk⟩ | ⟨np, k, htp⟩
  · rw [h0] at h
    injection h with h
    omega
  · rw [hk] at h
    exact PyResult.noConfusion h
  · rw [htp] at h
    injection h with h
    rw [← h]
    exact truncatedProduct_nonneg np k

/-- Witness for C9: the parser's value on "2MB" is non-negative. -/
theorem convert_value_nonneg_witness :
    (convert_size_expression_to_int "2MB").result
        = PyResult.ok (2 * 1024 * 1024)
      ∧ (0 : ℤ) ≤ 2 * 1024 * 1024 :=
  ⟨by decide, convert_value_nonneg "2MB" (2 * 1024 * 1024) (by decide)⟩

/-- C10: the whole partition computation runs only when
`build.ldscript` is absent or empty; with a nonempty custom linker
script configured, nothing runs: no output, no exit, and board
(including `upload.maximum_size`) and environment are returned
untouched. -/
theorem ldscript_guard_gates_partition_logic :
    (∀ (α : Type) (board : Board α) (env : Env) (s : String),
      board.build_ldscript = some s → s ≠ "" →
      linkerscript_step board env = RunResult.success board env [] [])
    ∧ (∀ (α : Type) (board : Board α) (env : Env),
      board.build_ldscript = none ∨ board.build_ldscript = some "" →
      linkerscript_step board env
        = populate_sketch_partition_info board env) := by
  constructor
  · intro α board env str hs hne
    unfold linkerscript_step
    rw [hs, Option.getD_some, if_neg hne]
  · intro α board env h
    unfold linkerscript_step
    rcases h with h | h <;> rw [h] <;> simp

/-- Witness for C10: a custom-linker-script board skips the computation
with board and environment unchanged; a board without one runs it. -/
theorem ldscript_guard_gates_partition_logic_witness :
    linkerscript_step picoCustomLd env0
        = RunResult.success picoCustomLd env0 [] []
      ∧ linkerscript_step pico2MB_default env0
        = populate_sketch_partition_info pico2MB_default env0 :=
  ⟨ldscript_guard_gates_partition_logic.1 Unit picoCustomLd env0 "custom.ld"
      rfl (by decide),
   ldscript_guard_gates_partition_logic.2 Unit pico2MB_default env0 (Or.inl rfl)⟩

end PlatformioBuild
